import Mathlib

/-!
Verification development for the birlscript virtual machine
(src/birl/src/vm.rs).

Shallow embedding conventions:
- Rust structs become Lean structures with the same field names.
- Methods taking &mut self become functions returning the updated state
  alongside an Except result; mutations performed before an early error
  return are kept in the returned state, matching &mut semantics.
- Rust panics (integer division by zero, out-of-bounds Vec indexing,
  usize underflow) are modelled by the VmError.trap constructor.
- i64 arithmetic wraps (wrap64), following the source's release-mode
  semantics as the spec describes them.
- f64 is modelled by Float; no claim depends on floating-point values.
- Formatted payloads inside error messages are elided; the literal
  message prefixes from the source are kept.
- Recursion through the heap (list comparison, list rendering) is given
  explicit fuel; running out of fuel models the stack overflow the source
  would hit on a cyclic heap.
-/

namespace Birl

/-- Modelled from the spec: IntegerType comes from the parser module, which
is not under src/; the spec fixes it to a 64-bit signed integer. -/
abbrev IntegerType := Int

/-- Wrap an unbounded integer into the i64 range, the wrapping semantics of
the host 64-bit integer. -/
def wrap64 (z : Int) : Int := (z + 2 ^ 63) % 2 ^ 64 - 2 ^ 63

/-- Host i64 division: truncating division that traps on divisor zero and
on the single overflowing case. -/
def i64Div (a b : Int) : Except String Int :=
  if b = 0 then .error "attempt to divide by zero"
  else if a = -(2 ^ 63) ∧ b = -1 then .error "attempt to divide with overflow"
  else .ok (Int.tdiv a b)

inductive Comparision
  | Equal
  | NotEqual
  | LessThan
  | MoreThan
  deriving DecidableEq, Repr

inductive ComparisionRequest
  | Equal
  | NotEqual
  | Less
  | LessOrEqual
  | More
  | MoreOrEqual
  deriving DecidableEq, Repr

inductive DynamicValue
  | Integer (i : IntegerType)
  | Number (n : Float)
  | Text (h : Nat)
  | List (h : Nat)
  | Null

/-- Default used to model guarded Vec indexing (indices are always checked
before use, mirroring the source's bounds checks). -/
def dummyValue : DynamicValue := .Null

inductive SpecialItemData
  | Text (s : String)
  | List (l : List DynamicValue)

structure SpecialItem where
  data : SpecialItemData
  item_id : Nat
  ref_count : Nat

structure SpecialStorage where
  items : List SpecialItem
  next_item_id : Nat

inductive VmError
  | err (msg : String)
  | trap (msg : String)
  deriving DecidableEq, Repr

def SpecialStorage.new : SpecialStorage := { items := [], next_item_id := 0 }

def SpecialStorage.add (s : SpecialStorage) (data : SpecialItemData)
    (ref_count : Nat) : Nat × SpecialStorage :=
  (s.next_item_id,
    { items := s.items ++ [{ data := data, item_id := s.next_item_id, ref_count := ref_count }],
      next_item_id := s.next_item_id + 1 })

/-- The loop body of SpecialStorage::decrement_ref: find the first item with
the given id; if its count is at most 1 remove it, otherwise decrement. -/
def decrementRefItems (id : Nat) : List SpecialItem → List SpecialItem
  | [] => []
  | item :: rest =>
    if item.item_id = id then
      if item.ref_count ≤ 1 then rest
      else { item with ref_count := item.ref_count - 1 } :: rest
    else item :: decrementRefItems id rest

def SpecialStorage.decrement_ref (s : SpecialStorage) (id : Nat) :
    Except VmError Unit × SpecialStorage :=
  (.ok (), { s with items := decrementRefItems id s.items })

/-- The lookup of SpecialStorage::get_mut specialised to the ref-count bump
of increment_ref: none when the id is unknown. -/
def incrementRefItems (id : Nat) : List SpecialItem → Option (List SpecialItem)
  | [] => none
  | item :: rest =>
    if item.item_id = id then some ({ item with ref_count := item.ref_count + 1 } :: rest)
    else (incrementRefItems id rest).map (item :: ·)

def SpecialStorage.increment_ref (s : SpecialStorage) (id : Nat) :
    Except VmError Unit × SpecialStorage :=
  match incrementRefItems id s.items with
  | some items1 => (.ok (), { s with items := items1 })
  | none => (.error (.err "Invalid item ID"), s)

/-- Linear search of SpecialStorage::get_ref. -/
def findItem (id : Nat) : List SpecialItem → Option SpecialItem
  | [] => none
  | item :: rest => if item.item_id = id then some item else findItem id rest

def SpecialStorage.get_ref (s : SpecialStorage) (id : Nat) : Option SpecialItem :=
  findItem id s.items

def SpecialStorage.get_data_ref (s : SpecialStorage) (id : Nat) : Option SpecialItemData :=
  (s.get_ref id).map (·.data)

/-- Guarded list indexing, used where the source indexes a Vec after an
explicit bounds check. -/
def listGetD {α : Type} (l : List α) (i : Nat) (d : α) : α :=
  match l, i with
  | [], _ => d
  | x :: _, 0 => x
  | _ :: xs, n + 1 => listGetD xs n d

/-- In-place update of one element, used for Vec writes through an index. -/
def listModify {α : Type} (l : List α) (i : Nat) (g : α → α) : List α :=
  match l, i with
  | [], _ => []
  | x :: xs, 0 => g x :: xs
  | x :: xs, n + 1 => x :: listModify xs n g

/-- In-place update of the last element, used for callstack.last_mut(). -/
def listModifyLast {α : Type} (l : List α) (g : α → α) : List α :=
  match l.getLast? with
  | none => l
  | some x => l.dropLast ++ [g x]

structure LoopLabel where
  start_pc : Nat
  index_address : Option Nat
  stepping : DynamicValue

def LoopLabel.new (start_pc : Nat) : LoopLabel :=
  { start_pc := start_pc, index_address := none, stepping := .Null }

structure FunctionFrame where
  id : Nat
  stack : List DynamicValue
  program_counter : Nat
  last_comparision : Option Comparision
  next_address : Nat
  ready : Bool
  skip_level : Nat
  stack_size : Nat
  num_special_items : Nat
  label_stack : List LoopLabel

def STACK_DEFAULT_SIZE : Nat := 128

def FunctionFrame.new (id : Nat) (stack_size : Nat) : FunctionFrame :=
  { id := id
    stack := List.replicate stack_size .Null
    program_counter := 0
    last_comparision := none
    next_address := 0
    ready := false
    skip_level := 0
    stack_size := stack_size
    num_special_items := 0
    label_stack := [] }

/-- Default used to model guarded frame indexing. -/
def dummyFrame : FunctionFrame := FunctionFrame.new 0 0

inductive ExecutionStatus
  | Normal
  | Quit
  | Returned
  | Halt
  deriving DecidableEq, Repr

structure Registers where
  math_a : DynamicValue
  math_b : DynamicValue
  intermediate : DynamicValue
  first_operation : Bool
  secondary : DynamicValue
  default_stack_size : Nat
  has_quit : Bool
  is_interactive : Bool
  next_code_index : Nat
  next_plugin_index : Nat

def Registers.default : Registers :=
  { math_a := .Null
    math_b := .Null
    secondary := .Null
    intermediate := .Null
    first_operation := false
    default_stack_size := STACK_DEFAULT_SIZE
    has_quit := false
    is_interactive := false
    next_code_index := 0
    next_plugin_index := 0 }

/-- Modelled from the spec: TypeKind comes from the parser module, which is
not under src/; the spec lists the kinds Text, Integer, Number, List. -/
inductive TypeKind
  | Text
  | Integer
  | Number
  | List
  deriving DecidableEq, Repr

/-- Modelled from the spec: RawValue comes from the context module, which is
not under src/; the spec gives Text, Number, Integer, Null. -/
inductive RawValue
  | Text (s : String)
  | Number (n : Float)
  | Integer (i : IntegerType)
  | Null

inductive Instruction
  | PrintMathB
  | PrintMathBDebug
  | PrintNewLine
  | FlushStdout
  | Quit
  | Compare
  | Return
  | EndConditionalBlock
  | ExecuteIf (req : ComparisionRequest)
  | MakeNewFrame (id : Nat)
  | SetLastFrameReady
  | AssertMathBCompatible (kind : TypeKind)
  | ReadInput
  | ConvertToString
  | ConvertToNum
  | ConvertToInt
  | PushValMathA (val : RawValue)
  | PushValMathB (val : RawValue)
  | PushIntermediateToA
  | PushIntermediateToB
  | PushMathBToSeconday
  | ClearSecondary
  | ReadGlobalVarFrom (addr : Nat)
  | WriteGlobalVarTo (addr : Nat)
  | ReadVarFrom (addr : Nat)
  | WriteVarTo (addr : Nat)
  | WriteVarToLast (addr : Nat)
  | SwapMath
  | ClearMath
  | Add
  | Mul
  | Div
  | Sub
  | AddLoopLabel
  | RestoreLoopLabel
  | PopLoopLabel
  | RegisterIncrementOnRestore (address : Nat)
  | SetFirstExpressionOperation
  | MakeNewList
  | IndexList
  | AddToListAtIndex
  | RemoveFromListAtIndex
  | QueryListSize
  | CallPlugin (address : Nat) (num : Nat)
  | PushMathBPluginArgument
  | IncreaseSkippingLevel
  | Halt
  | TryDecrementRefAt (address : Nat)

/-- The VM state. stdout is modelled as an optional output buffer (writes
always succeed); stdin as an optional queue of pending lines, each as
read_line would deliver it. Plugins are host function pointers, modelled
by opaque identifiers interpreted by a PluginEval argument to run. -/
structure VirtualMachine where
  registers : Registers
  callstack : List FunctionFrame
  stdout : Option String
  stdin : Option (List String)
  code : List (List Instruction)
  plugins : List Nat
  special_storage : SpecialStorage
  plugin_argument_stack : List DynamicValue

/-- Interpretation of plugin function pointers: the host side of
CallPlugin, outside the VM core. -/
def PluginEval :=
  Nat → List DynamicValue → VirtualMachine → Except VmError (Option DynamicValue) × VirtualMachine

def VirtualMachine.new : VirtualMachine :=
  { registers := Registers.default
    callstack := []
    stdout := none
    stdin := none
    code := []
    plugins := []
    special_storage := SpecialStorage.new
    plugin_argument_stack := [] }

/-- Index (from the bottom) of the topmost ready frame, the search of
get_last_ready_ref / get_last_ready_mut. -/
def lastReadyIdx : List FunctionFrame → Option Nat
  | [] => none
  | f :: rest =>
    match lastReadyIdx rest with
    | some i => some (i + 1)
    | none => if f.ready then some 0 else none

def VirtualMachine.get_last_ready_ref (vm : VirtualMachine) : Option FunctionFrame :=
  match lastReadyIdx vm.callstack with
  | some i => some (listGetD vm.callstack i dummyFrame)
  | none => none

def VirtualMachine.modifyLastReady (vm : VirtualMachine)
    (g : FunctionFrame → FunctionFrame) : Option VirtualMachine :=
  match lastReadyIdx vm.callstack with
  | some i => some { vm with callstack := listModify vm.callstack i g }
  | none => none

def VirtualMachine.get_current_skip_level (vm : VirtualMachine) : Nat :=
  match vm.get_last_ready_ref with
  | some f => f.skip_level
  | none => 0

/-- The narrow variant: looks only at the top two frames. -/
def VirtualMachine.get_last_ready_index (vm : VirtualMachine) : Option Nat :=
  match vm.callstack with
  | [] => none
  | [f] => if f.ready then some 0 else none
  | f1 :: f2 :: rest =>
    let frames := f1 :: f2 :: rest
    let last := frames.length - 1
    if (listGetD frames last dummyFrame).ready then some last else some (last - 1)

def VirtualMachine.add_special_item (vm : VirtualMachine) (frame_index : Nat)
    (data : SpecialItemData) : Except VmError Nat × VirtualMachine :=
  if vm.callstack.length ≤ frame_index then
    (.error (.err "add_special_item : Index é inválido"), vm)
  else
    let frames1 :=
      listModify vm.callstack frame_index
        (fun f => { f with num_special_items := f.num_special_items + 1 })
    let vm1 := { vm with callstack := frames1 }
    let idSt := vm1.special_storage.add data 0
    (.ok idSt.1, { vm1 with special_storage := idSt.2 })

def VirtualMachine.raw_to_dynamic (vm : VirtualMachine) (val : RawValue) :
    Except VmError DynamicValue × VirtualMachine :=
  match val with
  | .Text t =>
    let parent_index := (vm.get_last_ready_index).getD 0
    match vm.add_special_item parent_index (.Text t) with
    | (.ok id, vm1) => (.ok (.Text id), vm1)
    | (.error e, vm1) => (.error e, vm1)
  | .Number n => (.ok (.Number n), vm)
  | .Integer i => (.ok (.Integer i), vm)
  | .Null => (.ok .Null, vm)

def VirtualMachine.write_to (vm : VirtualMachine) (val : DynamicValue)
    (stack_index : Nat) (address : Nat) : Except VmError Unit × VirtualMachine :=
  if vm.callstack.length ≤ stack_index then
    (.error (.err "Index de frame inválido"), vm)
  else
    let frame := listGetD vm.callstack stack_index dummyFrame
    if frame.stack.length ≤ address then
      (.error (.err "Endereço out-of-bounds"), vm)
    else
      let storage1 :=
        match listGetD frame.stack address dummyValue with
        | .List id | .Text id => (vm.special_storage.decrement_ref id).2
        | _ => vm.special_storage
      let vm1 := { vm with special_storage := storage1 }
      let afterIncr : Except VmError Unit × VirtualMachine :=
        match val with
        | .List id | .Text id =>
          match vm1.special_storage.increment_ref id with
          | (.ok _, st2) => (.ok (), { vm1 with special_storage := st2 })
          | (.error e, st2) => (.error e, { vm1 with special_storage := st2 })
        | _ => (.ok (), vm1)
      match afterIncr with
      | (.ok _, vm2) =>
        let frames2 :=
          listModify vm2.callstack stack_index
            (fun f => { f with stack := listModify f.stack address (fun _ => val) })
        (.ok (), { vm2 with callstack := frames2 })
      | (.error e, vm2) => (.error e, vm2)

def VirtualMachine.increase_skip_level (vm : VirtualMachine) :
    Except VmError Unit × VirtualMachine :=
  match vm.modifyLastReady (fun f => { f with skip_level := f.skip_level + 1 }) with
  | some vm1 => (.ok (), vm1)
  | none => (.error (.err "Nenhuma função ready em execução"), vm)

def VirtualMachine.decrease_skip_level (vm : VirtualMachine) :
    Except VmError Unit × VirtualMachine :=
  match vm.modifyLastReady (fun f => { f with skip_level := f.skip_level - 1 }) with
  | some vm1 => (.ok (), vm1)
  | none => (.error (.err "Nenhuma função ready em execução"), vm)

/-- Note the source's guard uses a strict comparison, so index == len slips
through to the Vec indexing; that indexing is modelled as a trap. -/
def VirtualMachine.read_from_id (vm : VirtualMachine) (index : Nat) (address : Nat) :
    Except VmError DynamicValue :=
  if vm.callstack.length < index then
    .error (.err "Index out of bounds for read")
  else if vm.callstack.length ≤ index then
    .error (.trap "index out of bounds")
  else
    let frame := listGetD vm.callstack index dummyFrame
    if frame.stack.length ≤ address then
      .error (.err "Erro : Endereço pra variável é inválido")
    else
      .ok (listGetD frame.stack address dummyValue)

def VirtualMachine.get_current_pc (vm : VirtualMachine) : Option Nat :=
  match vm.get_last_ready_ref with
  | some f => some f.program_counter
  | none => none

def VirtualMachine.set_current_pc (vm : VirtualMachine) (pc : Nat) :
    Except VmError Unit × VirtualMachine :=
  match vm.modifyLastReady (fun f => { f with program_counter := pc }) with
  | some vm1 => (.ok (), vm1)
  | none => (.error (.err "Nenhuma função em execução"), vm)

def VirtualMachine.get_last_comparision (vm : VirtualMachine) :
    Except VmError Comparision :=
  match vm.callstack.getLast? with
  | none => .error (.err "Callstack vazia")
  | some f =>
    match f.last_comparision with
    | some c => .ok c
    | none => .error (.err "Nenhuma comparação na função atual")

def VirtualMachine.set_last_comparision (vm : VirtualMachine) (comp : Comparision) :
    Except VmError Unit × VirtualMachine :=
  match vm.callstack with
  | [] => (.error (.err "Callstack tá vazia. Provavelmente é erro interno"), vm)
  | _ :: _ =>
    let frames1 :=
      listModifyLast vm.callstack (fun f => { f with last_comparision := some comp })
    (.ok (), { vm with callstack := frames1 })

def VirtualMachine.last_comparision_matches (vm : VirtualMachine)
    (req : ComparisionRequest) : Except VmError Bool :=
  match vm.get_last_comparision with
  | .error e => .error e
  | .ok last =>
    match req with
    | .Equal => .ok (decide (last = Comparision.Equal))
    | .NotEqual => .ok (decide (last ≠ Comparision.Equal))
    | .Less => .ok (decide (last = Comparision.LessThan))
    | .LessOrEqual => .ok (decide (last = Comparision.LessThan ∨ last = Comparision.Equal))
    | .More => .ok (decide (last = Comparision.MoreThan))
    | .MoreOrEqual => .ok (decide (last = Comparision.MoreThan ∨ last = Comparision.Equal))

/-- Output write; modelled writes always succeed (IO failure is external). -/
def VirtualMachine.vmWrite (vm : VirtualMachine) (s : String) : VirtualMachine :=
  match vm.stdout with
  | some buf => { vm with stdout := some (buf ++ s) }
  | none => vm

def VirtualMachine.flush_stdout (vm : VirtualMachine) : VirtualMachine := vm

/-- VirtualMachine::is_compatible. Note the catch-all arm of the source:
a List or Null left operand is never compatible. -/
def is_compatible : DynamicValue → DynamicValue → Bool
  | .Text _, .Text _ => true
  | .Text _, _ => false
  | .Integer _, .Integer _ => true
  | .Integer _, .Number _ => true
  | .Number _, .Integer _ => true
  | .Number _, .Number _ => true
  | .Integer _, _ => false
  | .Number _, _ => false
  | _, _ => false

def addIncompatibleMsg : String := "Add : Os valores não são compatíveis"

def internalIncompatibleMsg : String := "Incompatível. Não deveria chegar aqui."

def VirtualMachine.add_values (vm : VirtualMachine) (left : DynamicValue)
    (right : DynamicValue) : Except VmError DynamicValue × VirtualMachine :=
  if ¬ is_compatible left right then
    (.error (.err addIncompatibleMsg), vm)
  else
    match left, right with
    | .Integer l_i, .Integer r_i => (.ok (.Integer (wrap64 (l_i + r_i))), vm)
    | .Integer l_i, .Number r_n => (.ok (.Number (Float.ofInt l_i + r_n)), vm)
    | .Integer _, _ => (.error (.err internalIncompatibleMsg), vm)
    | .Number l_n, .Integer r_i => (.ok (.Number (l_n + Float.ofInt r_i)), vm)
    | .Number l_n, .Number r_n => (.ok (.Number (l_n + r_n)), vm)
    | .Number _, _ => (.error (.err internalIncompatibleMsg), vm)
    | .Text l_t, .Text r_t =>
      -- In the source, left_v is fetched from the right handle and right_v
      -- from the left handle.
      (match vm.special_storage.get_data_ref r_t with
      | some (.Text left_v) =>
        match vm.special_storage.get_data_ref l_t with
        | some (.Text right_v) =>
          let resVm : String × VirtualMachine :=
            if vm.registers.first_operation then
              (right_v ++ left_v,
                { vm with registers := { vm.registers with first_operation := false } })
            else
              (left_v ++ right_v, vm)
          let vm1 := resVm.2
          match vm1.get_last_ready_index with
          | none => (.error (.err "Nenhuma função em execução"), vm1)
          | some parent_index =>
            match vm1.add_special_item parent_index (.Text resVm.1) with
            | (.ok id, vm2) => (.ok (.Text id), vm2)
            | (.error e, vm2) => (.error e, vm2)
        | some (.List _) =>
          (.error (.err "Erro interno : DynamicValue é texto, mas o id aponta pra outra coisa"), vm)
        | none => (.error (.err "Add w/ Text : Id não encontrada."), vm)
      | some (.List _) =>
        (.error (.err "Erro interno : DynamicValue é texto, mas o id aponta pra outra coisa"), vm)
      | none => (.error (.err "Add w/ Text : Id não encontrada."), vm))
    | .Text _, _ => (.error (.err internalIncompatibleMsg), vm)
    | .List left_id, .List right_id =>
      (match vm.special_storage.get_data_ref left_id with
      | some (.List left_contents) =>
        match vm.special_storage.get_data_ref right_id with
        | some (.List right_contents) =>
          let data := left_contents ++ right_contents
          match vm.get_last_ready_index with
          | none => (.error (.err "Nenhuma função em execução"), vm)
          | some index =>
            match vm.add_special_item index (.List data) with
            | (.ok id, vm1) => (.ok (.List id), vm1)
            | (.error e, vm1) => (.error e, vm1)
        | some (.Text _) =>
          (.error (.err "Erro interno : DynamicValue é uma lista, mas o valor guardado não"), vm)
        | none => (.error (.err "Erro interno : ID inválida pra lista"), vm)
      | some (.Text _) =>
        (.error (.err "Erro interno : DynamicValue é uma lista, mas o valor guardado não"), vm)
      | none => (.error (.err "Erro interno : ID inválida pra lista"), vm))
    | .List _, _ =>
      (.error (.err "Operação não suportada entre Listas e outros valores"), vm)
    | .Null, _ => (.ok .Null, vm)

def VirtualMachine.sub_values (vm : VirtualMachine) (left : DynamicValue)
    (right : DynamicValue) : Except VmError DynamicValue × VirtualMachine :=
  if ¬ is_compatible left right then
    (.error (.err addIncompatibleMsg), vm)
  else
    match left, right with
    | .Integer l_i, .Integer r_i => (.ok (.Integer (wrap64 (l_i - r_i))), vm)
    | .Integer l_i, .Number r_n => (.ok (.Number (Float.ofInt l_i - r_n)), vm)
    | .Integer _, _ => (.error (.err internalIncompatibleMsg), vm)
    | .Number l_n, .Integer r_i => (.ok (.Number (l_n - Float.ofInt r_i)), vm)
    | .Number l_n, .Number r_n => (.ok (.Number (l_n - r_n)), vm)
    | .Number _, _ => (.error (.err internalIncompatibleMsg), vm)
    | .Text _, _ => (.error (.err "Operação inválida em texto : -"), vm)
    | .Null, _ => (.ok .Null, vm)
    | .List _, _ => (.error (.err "Operação não suportada em listas"), vm)

def VirtualMachine.mul_values (vm : VirtualMachine) (left : DynamicValue)
    (right : DynamicValue) : Except VmError DynamicValue × VirtualMachine :=
  if ¬ is_compatible left right then
    (.error (.err addIncompatibleMsg), vm)
  else
    match left, right with
    | .Integer l_i, .Integer r_i => (.ok (.Integer (wrap64 (l_i * r_i))), vm)
    | .Integer l_i, .Number r_n => (.ok (.Number (Float.ofInt l_i * r_n)), vm)
    | .Integer _, _ => (.error (.err internalIncompatibleMsg), vm)
    | .Number l_n, .Integer r_i => (.ok (.Number (l_n * Float.ofInt r_i)), vm)
    | .Number l_n, .Number r_n => (.ok (.Number (l_n * r_n)), vm)
    | .Number _, _ => (.error (.err internalIncompatibleMsg), vm)
    | .Text _, _ => (.error (.err "Operação inválida em texto : *"), vm)
    | .Null, _ => (.ok .Null, vm)
    | .List _, _ => (.error (.err "Operação não suportada em listas"), vm)

def VirtualMachine.div_values (vm : VirtualMachine) (left : DynamicValue)
    (right : DynamicValue) : Except VmError DynamicValue × VirtualMachine :=
  if ¬ is_compatible left right then
    (.error (.err addIncompatibleMsg), vm)
  else
    match left, right with
    | .Integer l_i, .Integer r_i =>
      (match i64Div l_i r_i with
      | .ok q => (.ok (.Integer q), vm)
      | .error msg => (.error (.trap msg), vm))
    | .Integer l_i, .Number r_n => (.ok (.Number (Float.ofInt l_i / r_n)), vm)
    | .Integer _, _ => (.error (.err internalIncompatibleMsg), vm)
    | .Number l_n, .Integer r_i => (.ok (.Number (l_n / Float.ofInt r_i)), vm)
    | .Number l_n, .Number r_n => (.ok (.Number (l_n / r_n)), vm)
    | .Number _, _ => (.error (.err internalIncompatibleMsg), vm)
    | .Text _, _ => (.error (.err "Operação inválida em texto : /"), vm)
    | .Null, _ => (.ok .Null, vm)
    | .List _, _ => (.error (.err "Operação não suportada em listas"), vm)

/-- The numeric comparison closure inside VirtualMachine::compare. -/
def compNumbers (l r : Float) : Comparision :=
  if l == r then .Equal else if l < r then .LessThan else .MoreThan

/-- Text length in the source is the UTF-8 byte length of the Rust string. -/
def textLen (s : String) : Nat := s.utf8ByteSize

mutual

/-- VirtualMachine::compare. The recursion through list children goes
through heap handles, so it gets explicit fuel; exhausted fuel models the
stack overflow the source would hit on a cyclic heap. -/
def compare (st : SpecialStorage) (fuel : Nat) (left right : DynamicValue) :
    Except VmError Comparision :=
  match left, right with
  | .Integer l_i, .Integer r_i =>
    .ok (if l_i = r_i then .Equal else if l_i < r_i then .LessThan else .MoreThan)
  | .Integer l_i, .Number r_n => .ok (compNumbers (Float.ofInt l_i) r_n)
  | .Integer _, _ => .ok .NotEqual
  | .Number l_n, .Number r_n => .ok (compNumbers l_n r_n)
  | .Number l_n, .Integer r_i => .ok (compNumbers l_n (Float.ofInt r_i))
  | .Number _, _ => .ok .NotEqual
  | .Text l_t, .Text r_t =>
    (match st.get_data_ref l_t with
    | some (.Text ltext) =>
      match st.get_data_ref r_t with
      | some (.Text rtext) =>
        if textLen ltext > textLen rtext then .ok .MoreThan
        else if textLen ltext < textLen rtext then .ok .LessThan
        else if ltext = rtext then .ok .Equal
        else .ok .NotEqual
      | some (.List _) =>
        .error (.err "Erro interno : DynamicValue é texto, mas o id aponta pra outra coisa")
      | none => .error (.err "Erro : TextID não encontrada")
    | some (.List _) =>
      .error (.err "Erro interno : DynamicValue é texto, mas o id aponta pra outra coisa")
    | none => .error (.err "Erro : TextID não encontrada"))
  | .Text _, _ => .ok .NotEqual
  | .List left_id, .List right_id =>
    (match fuel with
    | 0 => .error (.trap "stack overflow")
    | fuel' + 1 =>
      match st.get_data_ref left_id with
      | some (.List left_list) =>
        match st.get_data_ref right_id with
        | some (.List right_list) =>
          if left_list.length ≠ right_list.length then .ok .NotEqual
          else compareList st fuel' left_list right_list
        | some (.Text _) =>
          .error (.err "Erro interno : DynamicValue é uma lista mas o item guardado não")
        | none => .error (.err "ID não existe")
      | some (.Text _) =>
        .error (.err "Erro interno : DynamicValue é uma lista mas o item guardado não")
      | none => .error (.err "ID não existe"))
  | .List _, _ => .ok .NotEqual
  | .Null, .Null => .ok .Equal
  | .Null, _ => .ok .NotEqual
termination_by (fuel, 0)

/-- Element-wise loop of the list case of compare; the lists have equal
length when it is entered. Any non-Equal element short-circuits. -/
def compareList (st : SpecialStorage) (fuel : Nat) :
    List DynamicValue → List DynamicValue → Except VmError Comparision
  | [], _ => .ok .Equal
  | _ :: _, [] => .ok .Equal
  | x :: xs, y :: ys =>
    match compare st fuel x y with
    | .ok .Equal => compareList st fuel xs ys
    | .ok _ => .ok .NotEqual
    | .error e => .error e
termination_by l _ => (fuel, l.length + 1)

end

mutual

/-- VirtualMachine::conv_to_string. Fueled for the same reason as compare. -/
def conv_to_string (st : SpecialStorage) (fuel : Nat) (val : DynamicValue) :
    Except VmError String :=
  match val with
  | .Text t =>
    (match st.get_data_ref t with
    | some (.Text s) => .ok s
    | some (.List _) =>
      .error (.err "Erro interno : DynamicValue é texto, mas o id aponta pra outra coisa")
    | none => .error (.err "Invalid string ID"))
  | .Integer i => .ok (toString i)
  | .Number n => .ok (toString n)
  | .Null => .ok "<Null>"
  | .List id =>
    (match fuel with
    | 0 => .error (.trap "stack overflow")
    | fuel' + 1 =>
      match st.get_data_ref id with
      | some (.List list) =>
        match convChildren st fuel' list true "[ " with
        | .ok r => .ok (r ++ " ]")
        | .error e => .error e
      | some (.Text _) =>
        .error (.err "Erro interno : DynamicValue é uma lista, item interno não")
      | none => .error (.err "ID inválida pra lista"))
termination_by (fuel, 0)

/-- The child-rendering loop of the list case of conv_to_string: separators,
and quotes around text children. -/
def convChildren (st : SpecialStorage) (fuel : Nat) :
    List DynamicValue → Bool → String → Except VmError String
  | [], _, acc => .ok acc
  | item :: rest, first, acc =>
    let acc1 := if first then acc else acc ++ ", "
    let is_str : Bool := match item with | .Text _ => true | _ => false
    match conv_to_string st fuel item with
    | .error e => .error e
    | .ok s =>
      let acc2 := if is_str then acc1 ++ "\"" ++ s ++ "\"" else acc1 ++ s
      convChildren st fuel rest false acc2
termination_by l _ _ => (fuel, l.length + 1)

end

/-- Modelled from the spec: host f64 literal parsing (str::parse) is outside
src/; only integer-shaped strings are given a value here, which is all the
faithfulness the claims require. -/
def parseF64 (s : String) : Option Float :=
  (s.toInt?).map Float.ofInt

/-- Modelled from the spec: the saturating host cast from f64 to i64 is
approximated through the unsigned cast on each sign; no claim exercises
this path. -/
def floatToIntModel (n : Float) : Int :=
  if n < 0 then -(Int.ofNat ((-n).toUInt64.toNat)) else Int.ofNat n.toUInt64.toNat

def VirtualMachine.conv_to_int (vm : VirtualMachine) (val : DynamicValue) :
    Except VmError IntegerType :=
  match val with
  | .Text t =>
    (match vm.special_storage.get_data_ref t with
    | some (.Text text) =>
      match text.toInt? with
      | some i =>
        if -(2 ^ 63) ≤ i ∧ i < 2 ^ 63 then .ok i
        else .error (.err "Não foi possível converter pra Int")
      | none => .error (.err "Não foi possível converter pra Int")
    | some (.List _) =>
      .error (.err "Erro interno : DynamicValue é texto, mas o id aponta pra outra coisa")
    | none => .error (.err "Invalid text id"))
  | .Number n => .ok (floatToIntModel n)
  | .Integer i => .ok i
  | .Null => .error (.err "Convert : <Null>")
  | .List _ => .error (.err "Não é possível converter uma lista pra inteiro")

def VirtualMachine.conv_to_num (vm : VirtualMachine) (val : DynamicValue) :
    Except VmError Float :=
  match val with
  | .Text t =>
    (match vm.special_storage.get_data_ref t with
    | some (.Text text) =>
      match parseF64 text with
      | some n => .ok n
      | none => .error (.err "Não foi possível converter pra Num")
    | some (.List _) =>
      .error (.err "Erro interno : DynamicValue é texto, mas o id aponta pra outra coisa")
    | none => .error (.err "Invalid text id"))
  | .Number n => .ok n
  | .Integer i => .ok (Float.ofInt i)
  | .Null => .error (.err "Convert : <Null>")
  | .List _ => .error (.err "Não é possível converter uma lista pra número")

/-- Fuel handed to the heap-recursive helpers: on an acyclic heap every
nesting level visits a distinct list item, so the item count bounds the
depth. -/
def VirtualMachine.convFuel (vm : VirtualMachine) : Nat :=
  vm.special_storage.items.length + 1

def VirtualMachine.print_value (vm : VirtualMachine) (val : DynamicValue) :
    Except VmError Unit × VirtualMachine :=
  match val with
  | .Integer i => (.ok (), vm.vmWrite (toString i))
  | .Number n => (.ok (), vm.vmWrite (toString n))
  | .Text t =>
    (match vm.special_storage.get_data_ref t with
    | some (.Text s) => (.ok (), vm.vmWrite s)
    | some (.List _) =>
      (.error (.err "Erro interno : DynamicValue é texto, mas o id aponta pra outra coisa"), vm)
    | none => (.error (.err "MainPrint : Não foi encontrado text com ID"), vm))
  | .List id =>
    (match conv_to_string vm.special_storage vm.convFuel (.List id) with
    | .ok s => (.ok (), vm.vmWrite ("(Lista) " ++ s))
    | .error e => (.error e, vm))
  | .Null => (.ok (), vm.vmWrite "<Null>")

/-- The body of the PrintMathBDebug arm of run (without the skip guard). -/
def VirtualMachine.printMathBDebugCore (vm : VirtualMachine) :
    Except VmError Unit × VirtualMachine :=
  match vm.registers.math_b with
  | .Integer i => (.ok (), (vm.vmWrite ("(Integer) " ++ toString i ++ "\n")).flush_stdout)
  | .Number n => (.ok (), (vm.vmWrite ("(Number) " ++ toString n ++ "\n")).flush_stdout)
  | .Text t =>
    (match vm.special_storage.get_data_ref t with
    | some (.Text s) =>
      (.ok (), (vm.vmWrite ("(Text) \"" ++ s ++ "\"\n")).flush_stdout)
    | some (.List _) =>
      (.error (.err "Erro interno : DynamicValue é texto, mas o id aponta pra outra coisa"), vm)
    | none => (.error (.err "MainPrint : Não foi encontrado text com ID"), vm))
  | .Null => (.ok (), (vm.vmWrite "<Null>\n").flush_stdout)
  | .List id =>
    (match conv_to_string vm.special_storage vm.convFuel (.List id) with
    | .ok s => (.ok (), (vm.vmWrite (s ++ "\n")).flush_stdout)
    | .error e => (.error e, vm))

/-- The source's recursive self.run(Instruction::PrintMathBDebug) calls:
the skip guard followed by the PrintMathBDebug arm. -/
def VirtualMachine.printMathBDebugStep (vm : VirtualMachine) :
    Except VmError ExecutionStatus × VirtualMachine :=
  if vm.get_current_skip_level > 0 then (.ok .Normal, vm)
  else
    match vm.printMathBDebugCore with
    | (.ok _, vm1) => (.ok .Normal, vm1)
    | (.error e, vm1) => (.error e, vm1)

/-- In-place data replacement behind get_data_mut. -/
def setItemData (id : Nat) (d : SpecialItemData) : List SpecialItem → List SpecialItem
  | [] => []
  | item :: rest =>
    if item.item_id = id then { item with data := d } :: rest
    else item :: setItemData id d rest

def SpecialStorage.set_data (s : SpecialStorage) (id : Nat) (d : SpecialItemData) :
    SpecialStorage :=
  { s with items := setItemData id d s.items }

/-- VirtualMachine::run, one instruction to completion. The pe argument
interprets the stored plugin function pointers. -/
def VirtualMachine.run (pe : PluginEval) (vm : VirtualMachine) (inst : Instruction) :
    Except VmError ExecutionStatus × VirtualMachine :=
  if vm.get_current_skip_level > 0 then
    match inst with
    | .EndConditionalBlock =>
      (match vm.decrease_skip_level with
      | (.ok _, vm1) => (.ok .Normal, vm1)
      | (.error e, vm1) => (.error e, vm1))
    | _ => (.ok .Normal, vm)
  else
    match inst with
    | .EndConditionalBlock => (.ok .Normal, vm)
    | .PrintMathBDebug =>
      (match vm.printMathBDebugCore with
      | (.ok _, vm1) => (.ok .Normal, vm1)
      | (.error e, vm1) => (.error e, vm1))
    | .PrintMathB =>
      (match vm.print_value vm.registers.math_b with
      | (.ok _, vm1) => (.ok .Normal, vm1)
      | (.error e, vm1) => (.error e, vm1))
    | .PrintNewLine => (.ok .Normal, vm.vmWrite "\n")
    | .Quit =>
      (.ok .Quit, { vm with registers := { vm.registers with has_quit := true } })
    | .FlushStdout => (.ok .Normal, vm.flush_stdout)
    | .Compare =>
      (match compare vm.special_storage vm.convFuel vm.registers.math_a vm.registers.math_b with
      | .error e => (.error e, vm)
      | .ok result =>
        match vm.set_last_comparision result with
        | (.ok _, vm1) => (.ok .Normal, vm1)
        | (.error e, vm1) => (.error e, vm1))
    | .Return =>
      if vm.callstack.length = 1 then
        (.ok .Quit, { vm with registers := { vm.registers with has_quit := true } })
      else
        (match vm.callstack with
        | [] => (.error (.err "Erro no return : Nenhuma função em execução"), vm)
        | _ :: _ =>
          let vm1 := { vm with callstack := vm.callstack.dropLast }
          let index := vm1.callstack.length - 1
          match vm1.write_to vm.registers.math_b index 0 with
          | (.error e, vm2) => (.error e, vm2)
          | (.ok _, vm2) =>
            if vm2.callstack.length = 1 ∧ vm2.registers.is_interactive = true then
              match vm2.printMathBDebugStep with
              | (.ok _, vm3) => (.ok .Returned, vm3)
              | (.error e, vm3) => (.error e, vm3)
            else (.ok .Returned, vm2))
    | .ExecuteIf req =>
      if vm.get_current_skip_level > 0 then
        (match vm.increase_skip_level with
        | (.ok _, vm1) => (.ok .Normal, vm1)
        | (.error e, vm1) => (.error e, vm1))
      else
        (match vm.last_comparision_matches req with
        | .error e => (.error e, vm)
        | .ok b =>
          if b then (.ok .Normal, vm)
          else
            match vm.increase_skip_level with
            | (.ok _, vm1) => (.ok .Normal, vm1)
            | (.error e, vm1) => (.error e, vm1))
    | .MakeNewFrame id =>
      let frames1 := vm.callstack ++ [FunctionFrame.new id vm.registers.default_stack_size]
      (.ok .Normal, { vm with callstack := frames1 })
    | .SetLastFrameReady =>
      (match vm.callstack with
      | [] => (.error (.err "Callstack vazia"), vm)
      | _ :: _ =>
        let frames1 := listModifyLast vm.callstack (fun f => { f with ready := true })
        (.ok .Normal, { vm with callstack := frames1 }))
    | .AssertMathBCompatible kind =>
      (match vm.registers.math_b with
      | .Null => (.error (.err "Tipo incompatível : Null"), vm)
      | .Text _ =>
        if kind = TypeKind.Text then (.ok .Normal, vm)
        else (.error (.err "Tipo incompatível : Texto"), vm)
      | .Integer _ =>
        if kind = TypeKind.Integer ∨ kind = TypeKind.Number then (.ok .Normal, vm)
        else (.error (.err "Tipo incompatível : Int ou Num"), vm)
      | .Number _ =>
        if kind = TypeKind.Number then (.ok .Normal, vm)
        else (.error (.err "Tipo incompatível : Number"), vm)
      | .List _ =>
        if kind = TypeKind.List then (.ok .Normal, vm)
        else (.error (.err "Tipo incompatível : Lista"), vm))
    | .ReadInput =>
      let lineRead : Except VmError (Option String) × VirtualMachine :=
        match vm.stdin with
        | some lines =>
          let line := lines.headD ""
          let vmIn := { vm with stdin := some lines.tail }
          -- line.remove(line.len() - 1): underflows, then traps, on an
          -- empty read (EOF); otherwise strips the final character.
          if line.length = 0 then
            (.error (.trap "attempt to subtract with overflow"), vmIn)
          else (.ok (some (line.dropRight 1)), vmIn)
        | none => (.ok none, vm)
      (match lineRead with
      | (.error e, vm1) => (.error e, vm1)
      | (.ok lineOpt, vm1) =>
        match vm1.get_last_ready_index with
        | none => (.error (.err "Nenhuma função em execução"), vm1)
        | some parent_index =>
          match lineOpt with
          | some line =>
            (match vm1.add_special_item parent_index (.Text line) with
            | (.ok id, vm2) =>
              let regs2 := { vm2.registers with intermediate := .Text id }
              (.ok .Normal, { vm2 with registers := regs2 })
            | (.error e, vm2) => (.error e, vm2))
          | none => (.ok .Normal, vm1))
    | .ConvertToNum =>
      (match vm.conv_to_num vm.registers.math_b with
      | .ok v =>
        (.ok .Normal, { vm with registers := { vm.registers with math_b := .Number v } })
      | .error e => (.error e, vm))
    | .ConvertToInt =>
      (match vm.conv_to_int vm.registers.math_b with
      | .ok v =>
        (.ok .Normal, { vm with registers := { vm.registers with math_b := .Integer v } })
      | .error e => (.error e, vm))
    | .ConvertToString =>
      (match vm.registers.math_b with
      | .Text id =>
        (.ok .Normal, { vm with registers := { vm.registers with math_b := .Text id } })
      | v =>
        match conv_to_string vm.special_storage vm.convFuel v with
        | .error e => (.error e, vm)
        | .ok s =>
          match vm.get_last_ready_index with
          | none => (.error (.err "Nenhuma função em execução"), vm)
          | some parent_index =>
            match vm.add_special_item parent_index (.Text s) with
            | (.ok id, vm1) =>
              (.ok .Normal, { vm1 with registers := { vm1.registers with math_b := .Text id } })
            | (.error e, vm1) => (.error e, vm1))
    | .PushValMathA val =>
      (match vm.raw_to_dynamic val with
      | (.ok v, vm1) =>
        (.ok .Normal, { vm1 with registers := { vm1.registers with math_a := v } })
      | (.error e, vm1) => (.error e, vm1))
    | .PushValMathB val =>
      (match vm.raw_to_dynamic val with
      | (.ok v, vm1) =>
        (.ok .Normal, { vm1 with registers := { vm1.registers with math_b := v } })
      | (.error e, vm1) => (.error e, vm1))
    | .PushIntermediateToA =>
      let regs1 := { vm.registers with math_a := vm.registers.intermediate }
      (.ok .Normal, { vm with registers := regs1 })
    | .PushIntermediateToB =>
      let regs1 := { vm.registers with math_b := vm.registers.intermediate }
      (.ok .Normal, { vm with registers := regs1 })
    | .ReadGlobalVarFrom addr =>
      (match vm.read_from_id 0 addr with
      | .ok v =>
        (.ok .Normal, { vm with registers := { vm.registers with intermediate := v } })
      | .error e => (.error e, vm))
    | .WriteGlobalVarTo addr =>
      (match vm.write_to vm.registers.math_b 0 addr with
      | (.ok _, vm1) => (.ok .Normal, vm1)
      | (.error e, vm1) => (.error e, vm1))
    | .ReadVarFrom addr =>
      (match vm.get_last_ready_index with
      | none => (.error (.err "Nenhuma função pronta em execução"), vm)
      | some index =>
        match vm.read_from_id index addr with
        | .ok v =>
          (.ok .Normal, { vm with registers := { vm.registers with intermediate := v } })
        | .error e => (.error e, vm))
    | .WriteVarTo addr =>
      (match vm.get_last_ready_index with
      | none => (.error (.err "Nenhuma função pronta em execução"), vm)
      | some index =>
        match vm.write_to vm.registers.math_b index addr with
        | (.ok _, vm1) => (.ok .Normal, vm1)
        | (.error e, vm1) => (.error e, vm1))
    | .WriteVarToLast addr =>
      (match vm.callstack with
      | [] => (.error (.trap "attempt to subtract with overflow"), vm)
      | _ :: _ =>
        let index := vm.callstack.length - 1
        match vm.write_to vm.registers.math_b index addr with
        | (.ok _, vm1) => (.ok .Normal, vm1)
        | (.error e, vm1) => (.error e, vm1))
    | .Add =>
      (match vm.add_values vm.registers.math_a vm.registers.math_b with
      | (.ok res, vm1) =>
        (.ok .Normal, { vm1 with registers := { vm1.registers with math_b := res } })
      | (.error e, vm1) => (.error e, vm1))
    | .Mul =>
      (match vm.mul_values vm.registers.math_a vm.registers.math_b with
      | (.ok res, vm1) =>
        (.ok .Normal, { vm1 with registers := { vm1.registers with math_b := res } })
      | (.error e, vm1) => (.error e, vm1))
    | .Div =>
      (match vm.div_values vm.registers.math_a vm.registers.math_b with
      | (.ok res, vm1) =>
        (.ok .Normal, { vm1 with registers := { vm1.registers with math_b := res } })
      | (.error e, vm1) => (.error e, vm1))
    | .Sub =>
      (match vm.sub_values vm.registers.math_a vm.registers.math_b with
      | (.ok res, vm1) =>
        (.ok .Normal, { vm1 with registers := { vm1.registers with math_b := res } })
      | (.error e, vm1) => (.error e, vm1))
    | .SwapMath =>
      (.ok .Normal, { vm with registers := { vm.registers with
        math_a := vm.registers.math_b, math_b := vm.registers.math_a } })
    | .ClearMath =>
      (.ok .Normal, { vm with registers := { vm.registers with
        math_a := .Null, math_b := .Null, intermediate := .Null } })
    | .AddLoopLabel =>
      (match vm.get_current_pc with
      | none => (.error (.err "Nenhuma função em execução"), vm)
      | some next_pc =>
        match vm.modifyLastReady
          (fun f => { f with label_stack := f.label_stack ++ [LoopLabel.new next_pc] }) with
        | some vm1 => (.ok .Normal, vm1)
        | none => (.error (.err "Nenhuma função em execução"), vm))
    | .RestoreLoopLabel =>
      (match vm.get_last_ready_ref with
      | none => (.error (.err "Nenhuma função em execução"), vm)
      | some f =>
        match f.label_stack.getLast? with
        | none => (.error (.err "Restore : Nenhuma label disponível"), vm)
        | some label =>
          match vm.set_current_pc label.start_pc with
          | (.error e, vm1) => (.error e, vm1)
          | (.ok _, vm1) =>
            match label.index_address with
            | none => (.ok .Normal, vm1)
            | some address =>
              match vm1.get_last_ready_index with
              | none => (.error (.err "Nenhuma função pronta em execução"), vm1)
              | some index =>
                match vm1.read_from_id index address with
                | .error e => (.error e, vm1)
                | .ok current =>
                  match vm1.add_values current label.stepping with
                  | (.error e, vm2) => (.error e, vm2)
                  | (.ok result, vm2) =>
                    match vm2.write_to result index address with
                    | (.ok _, vm3) => (.ok .Normal, vm3)
                    | (.error e, vm3) => (.error e, vm3))
    | .PopLoopLabel =>
      (match vm.get_last_ready_ref with
      | none => (.error (.err "Nenhuma função em execução"), vm)
      | some f =>
        match f.label_stack.getLast? with
        | none => (.error (.err "Não havia nenhuma label pra remover"), vm)
        | some _ =>
          match vm.modifyLastReady
            (fun fr => { fr with label_stack := fr.label_stack.dropLast }) with
          | some vm1 => (.ok .Normal, vm1)
          | none => (.error (.err "Nenhuma função em execução"), vm))
    | .RegisterIncrementOnRestore address =>
      let stepping := vm.registers.math_b
      (match vm.get_last_ready_ref with
      | none => (.error (.err "Nenhuma função em execução"), vm)
      | some f =>
        match f.label_stack.getLast? with
        | none => (.error (.err "Função atual não tem nenhuma label"), vm)
        | some _ =>
          let updLabel := fun (l : LoopLabel) =>
            { l with
              stepping := stepping
              index_address := some address
              start_pc := l.start_pc + 1 }
          let updFrame := fun (fr : FunctionFrame) =>
            { fr with label_stack := listModifyLast fr.label_stack updLabel }
          match vm.modifyLastReady updFrame with
          | some vm1 => (.ok .Normal, vm1)
          | none => (.error (.err "Nenhuma função em execução"), vm))
    | .SetFirstExpressionOperation =>
      (.ok .Normal, { vm with registers := { vm.registers with first_operation := true } })
    | .MakeNewList =>
      (match vm.get_last_ready_index with
      | none => (.error (.err "Nenhuma função em execução"), vm)
      | some index =>
        match vm.add_special_item index (.List []) with
        | (.ok id, vm1) =>
          (.ok .Normal, { vm1 with registers := { vm1.registers with math_b := .List id } })
        | (.error e, vm1) => (.error e, vm1))
    | .IndexList =>
      (match vm.registers.math_b with
      | .Integer i =>
        (match vm.registers.intermediate with
        | .List id =>
          (match vm.special_storage.get_data_ref id with
          | some (.List d) =>
            if i < 0 ∨ Int.ofNat d.length ≤ i then
              (.error (.err "Erro : Index depois do final da lista."), vm)
            else
              let regs1 := { vm.registers with math_b := listGetD d i.toNat dummyValue }
              (.ok .Normal, { vm with registers := regs1 })
          | some (.Text _) =>
            (.error (.err "Erro interno : DynamicValue é uma lista, mas o item na memória não"), vm)
          | none => (.error (.err "Erro interno : ID inválida"), vm))
        | _ => (.error (.err "Variável passada não é uma lista"), vm))
      | _ => (.error (.err "Esperado um índice na forma de um inteiro"), vm))
    | .AddToListAtIndex =>
      let indexOpt : Option Int :=
        match vm.registers.secondary with
        | .Integer v => some v
        | _ => none
      let value := vm.registers.math_b
      (match vm.registers.intermediate with
      | .List list_id =>
        (match vm.special_storage.get_data_ref list_id with
        | some (.List list) =>
          let newList :=
            match indexOpt with
            | some i =>
              -- i as usize: a negative index becomes huge and appends.
              if i < 0 ∨ Int.ofNat list.length ≤ i then list ++ [value]
              else list.take i.toNat ++ value :: list.drop i.toNat
            | none => list ++ [value]
          let st1 := vm.special_storage.set_data list_id (.List newList)
          (.ok .Normal, { vm with special_storage := st1 })
        | some (.Text _) =>
          (.error (.err "Item especial com a ID passada não é uma lista"), vm)
        | none => (.error (.err "ID da lista não encontrada"), vm))
      | _ => (.error (.err "AddListToIndex : A variável não é uma lista"), vm))
    | .ClearSecondary =>
      (.ok .Normal, { vm with registers := { vm.registers with secondary := .Null } })
    | .PushMathBToSeconday =>
      let regs1 := { vm.registers with secondary := vm.registers.math_b }
      (.ok .Normal, { vm with registers := regs1 })
    | .RemoveFromListAtIndex =>
      (match vm.registers.math_b with
      | .Integer i =>
        (match vm.registers.intermediate with
        | .List id =>
          (match vm.special_storage.get_data_ref id with
          | some (.List list) =>
            if i < 0 ∨ Int.ofNat list.length ≤ i then
              (.error (.err "Erro : Index maior que a lista."), vm)
            else
              let st1 := vm.special_storage.set_data id
                (.List (list.take i.toNat ++ list.drop (i.toNat + 1)))
              (.ok .Normal, { vm with special_storage := st1 })
          | some (.Text _) =>
            (.error (.err "Erro interno : DynamicValue é uma lista mas o valor na memória não"), vm)
          | none => (.error (.err "Erro interno : ID não encontrada"), vm))
        | _ => (.error (.err "A variável não é uma lista"), vm))
      | _ => (.error (.err "Esperado um inteiro como índice pra lista"), vm))
    | .QueryListSize =>
      (match vm.registers.intermediate with
      | .List id =>
        (match vm.special_storage.get_data_ref id with
        | some (.List list) =>
          let regs1 := { vm.registers with math_b := .Integer (Int.ofNat list.length) }
          (.ok .Normal, { vm with registers := regs1 })
        | some (.Text _) =>
          (.error (.err "Erro interno : ID não aponta pra uma lista"), vm)
        | none => (.error (.err "Não encontrado item com a ID passada"), vm))
      | _ => (.error (.err "QueryListSize : Variável não é uma lista"), vm))
    | .CallPlugin address num =>
      if address > vm.plugins.length then
        (.error (.err "CallPlugin : Endereço inválido"), vm)
      else
        (match vm.plugins.get? address with
        | none => (.error (.trap "index out of bounds"), vm)
        | some pid =>
          if num > vm.plugin_argument_stack.length then
            (.error (.err "CallPlugin : Número de argumentos maior que a quantidade de argumentos disponíveis"), vm)
          else
            let args := vm.plugin_argument_stack.reverse.take num
            let remaining := vm.plugin_argument_stack.take (vm.plugin_argument_stack.length - num)
            let vm1 := { vm with plugin_argument_stack := remaining }
            match pe pid args vm1 with
            | (.error e, vm2) => (.error e, vm2)
            | (.ok none, vm2) => (.ok .Normal, vm2)
            | (.ok (some value), vm2) =>
              match vm2.callstack with
              | [] => (.error (.trap "attempt to subtract with overflow"), vm2)
              | _ :: _ =>
                let index := vm2.callstack.length - 1
                match vm2.write_to value index 0 with
                | (.error e, vm3) => (.error e, vm3)
                | (.ok _, vm3) =>
                  if vm3.registers.is_interactive = true ∧ vm3.callstack.length = 1 then
                    let tmp := vm3.registers.math_b
                    let vm4 := { vm3 with registers := { vm3.registers with math_b := value } }
                    match vm4.printMathBDebugStep with
                    | (.error e, vm5) => (.error e, vm5)
                    | (.ok _, vm5) =>
                      (.ok .Normal, { vm5 with registers := { vm5.registers with math_b := tmp } })
                  else (.ok .Normal, vm3))
    | .PushMathBPluginArgument =>
      let stack1 := vm.plugin_argument_stack ++ [vm.registers.math_b]
      (.ok .Normal, { vm with plugin_argument_stack := stack1 })
    | .IncreaseSkippingLevel =>
      (match vm.increase_skip_level with
      | (.ok _, vm1) => (.ok .Normal, vm1)
      | (.error e, vm1) => (.error e, vm1))
    | .Halt => (.ok .Halt, vm)
    | .TryDecrementRefAt address =>
      (match vm.get_last_ready_index with
      | none => (.error (.err ""), vm)
      | some index =>
        match vm.read_from_id index address with
        | .error e => (.error e, vm)
        | .ok v =>
          match v with
          | .List id =>
            (.ok .Normal, { vm with special_storage := (vm.special_storage.decrement_ref id).2 })
          | .Text id =>
            (.ok .Normal, { vm with special_storage := (vm.special_storage.decrement_ref id).2 })
          | _ => (.ok .Normal, vm))

/-! Concrete fixtures used to instantiate the theorems below. -/

/-- Plugin interpretation used in concrete instantiations: every plugin
returns no value and leaves the VM untouched. -/
def trivialPluginEval : PluginEval := fun _ _ vm => (.ok none, vm)

/-- A ready frame with a two-slot local stack. -/
def readyFrame : FunctionFrame :=
  { FunctionFrame.new 0 2 with ready := true }

def itemText (id : Nat) (s : String) (rc : Nat) : SpecialItem :=
  { data := .Text s, item_id := id, ref_count := rc }

/-- A VM with a single ready frame and an empty heap. -/
def baseVM : VirtualMachine :=
  { VirtualMachine.new with callstack := [readyFrame] }

/-- A VM holding the texts "A" (handle 0) and "B" (handle 1). -/
def vmC2 : VirtualMachine :=
  { VirtualMachine.new with
    callstack := [readyFrame]
    special_storage := { items := [itemText 0 "A" 1, itemText 1 "B" 1], next_item_id := 2 } }

/-- A VM whose only (ready) frame is skipping at level 1. -/
def vmC3 : VirtualMachine :=
  { VirtualMachine.new with callstack := [{ readyFrame with skip_level := 1 }] }

/-! Helper lemmas about the heap primitives. -/

theorem findItem_none {l : List SpecialItem} {id : Nat}
    (h : ∀ x ∈ l, x.item_id ≠ id) : findItem id l = none := by
  induction l with
  | nil => rfl
  | cons x xs ih =>
    unfold findItem
    rw [if_neg (h x (List.mem_cons_self x xs))]
    exact ih fun y hy => h y (List.mem_cons_of_mem x hy)

theorem findItem_append {l l' : List SpecialItem} {id : Nat} :
    findItem id (l ++ l') =
      match findItem id l with
      | some x => some x
      | none => findItem id l' := by
  induction l with
  | nil => rfl
  | cons x xs ih =>
    by_cases hx : x.item_id = id
    · simp [findItem, hx]
    · simp only [List.cons_append, findItem, if_neg hx]
      exact ih

theorem decrementRefItems_miss {l : List SpecialItem} {id : Nat}
    (h : ∀ x ∈ l, x.item_id ≠ id) : decrementRefItems id l = l := by
  induction l with
  | nil => rfl
  | cons x xs ih =>
    unfold decrementRefItems
    rw [if_neg (h x (List.mem_cons_self x xs))]
    rw [ih fun y hy => h y (List.mem_cons_of_mem x hy)]

theorem decrementRefItems_found {pre post : List SpecialItem} {it : SpecialItem} {id : Nat}
    (hpre : ∀ x ∈ pre, x.item_id ≠ id) (hid : it.item_id = id) :
    decrementRefItems id (pre ++ it :: post) =
      if it.ref_count ≤ 1 then pre ++ post
      else pre ++ { it with ref_count := it.ref_count - 1 } :: post := by
  induction pre with
  | nil =>
    simp only [List.nil_append]
    unfold decrementRefItems
    rw [if_pos hid]
  | cons x xs ih =>
    simp only [List.cons_append]
    unfold decrementRefItems
    rw [if_neg (hpre x (List.mem_cons_self x xs))]
    rw [ih fun y hy => hpre y (List.mem_cons_of_mem x hy)]
    split <;> rfl

theorem incrementRefItems_none {l : List SpecialItem} {id : Nat}
    (h : ∀ x ∈ l, x.item_id ≠ id) : incrementRefItems id l = none := by
  induction l with
  | nil => rfl
  | cons x xs ih =>
    unfold incrementRefItems
    rw [if_neg (h x (List.mem_cons_self x xs))]
    rw [ih fun y hy => h y (List.mem_cons_of_mem x hy)]
    rfl

/-- A narrow index returned by get_last_ready_index is always a valid
frame index. -/
theorem lastReadyIndex_lt (vm : VirtualMachine) (idx : Nat)
    (h : vm.get_last_ready_index = some idx) : idx < vm.callstack.length := by
  unfold VirtualMachine.get_last_ready_index at h
  generalize hcs : vm.callstack = frames at h ⊢
  rcases frames with _ | ⟨f, _ | ⟨g, rest⟩⟩
  · simp at h
  · dsimp only at h
    split at h
    · cases h; simp
    · cases h
  · dsimp only at h
    split at h <;> (cases h; simp only [List.length_cons]; omega)

/-! Claim theorems. -/

/-- C1: the source's is_compatible falls into its catch-all arm for a List
left operand, so Add (add_values) on two List values always returns the
incompatibility error; the list-concatenation branch is unreachable. The
claim expects success with a fresh concatenated list, matching that dead
branch, so the code is the slip. -/
theorem C1_add_on_lists_always_rejected (vm : VirtualMachine) (h1 h2 : Nat) :
    vm.add_values (DynamicValue.List h1) (DynamicValue.List h2) =
      (Except.error (VmError.err addIncompatibleMsg), vm) := rfl

/-- C4: Div on Integer operands with a zero divisor reaches the host
integer division, which traps instead of producing a runtime error value;
the claim (and the spec's normative MUST) asks for an arithmetic error
result. -/
theorem C4_integer_division_by_zero_traps (vm : VirtualMachine) (a : Int) :
    vm.div_values (DynamicValue.Integer a) (DynamicValue.Integer 0) =
      (Except.error (VmError.trap "attempt to divide by zero"), vm) := rfl

/-- C5 counterexample: with Null on the left, Add does not succeed with
Null as the claim states; the compatibility guard rejects the pair first. -/
theorem C5_counterexample :
    (VirtualMachine.new.add_values DynamicValue.Null (DynamicValue.Integer 0)).1 =
      Except.error (VmError.err addIncompatibleMsg) ∧
    (VirtualMachine.new.add_values DynamicValue.Null (DynamicValue.Integer 0)).1 ≠
      Except.ok DynamicValue.Null :=
  ⟨rfl, fun h => Except.noConfusion h⟩

/-- C5 amended: for every right operand, each arithmetic operator applied
with Null as the left operand fails with the incompatibility error (Null
is incompatible on the left, so the operators' Null result arms are
unreachable). -/
theorem C5_null_left_always_fails (vm : VirtualMachine) (r : DynamicValue) :
    vm.add_values DynamicValue.Null r = (Except.error (VmError.err addIncompatibleMsg), vm) ∧
    vm.sub_values DynamicValue.Null r = (Except.error (VmError.err addIncompatibleMsg), vm) ∧
    vm.mul_values DynamicValue.Null r = (Except.error (VmError.err addIncompatibleMsg), vm) ∧
    vm.div_values DynamicValue.Null r = (Except.error (VmError.err addIncompatibleMsg), vm) := by
  refine ⟨?_, ?_, ?_, ?_⟩ <;> cases r <;> rfl

/-- C3: run discards an ExecuteIf that arrives while the skip level is
positive and leaves the skip level unchanged, instead of incrementing it
as the claim states; the bump branch inside the ExecuteIf arm is
unreachable because of the skip guard at the top of run, which breaks the
tracking of nested skipped conditionals the spec describes. -/
theorem C3_executeIf_discarded_while_skipping :
    vmC3.get_current_skip_level = 1 ∧
    vmC3.run trivialPluginEval (Instruction.ExecuteIf ComparisionRequest.Equal) =
      (Except.ok ExecutionStatus.Normal, vmC3) :=
  ⟨rfl, rfl⟩

/-- C2 counterexample: concatenating Text "A" (left, handle 0) with Text
"B" (right, handle 1) while first_operation is clear produces the heap
string "BA", not the "AB" the claim predicts: the source fetches the
variable for the left string from the right handle and vice versa. -/
theorem C2_counterexample :
    vmC2.registers.first_operation = false ∧
    (vmC2.add_values (DynamicValue.Text 0) (DynamicValue.Text 1)).1 =
      Except.ok (DynamicValue.Text 2) ∧
    (vmC2.add_values (DynamicValue.Text 0) (DynamicValue.Text 1)).2.special_storage.get_data_ref 2 =
      some (SpecialItemData.Text "BA") ∧
    "BA" ≠ "AB" :=
  ⟨rfl, rfl, rfl, by decide⟩

/-- Structure updates that leave the callstack alone do not change the
narrow ready-frame index. -/
theorem get_last_ready_index_set_registers (vm : VirtualMachine) (regs : Registers) :
    ({ vm with registers := regs } : VirtualMachine).get_last_ready_index =
      vm.get_last_ready_index := rfl

/-- C2 amended: when both Text handles resolve, a ready-frame index
exists and the next handle is fresh, Add on Text values allocates a fresh
heap string which is right ++ left when the first_operation flag is clear,
and left ++ right when the flag is set; the flag is false afterwards in
both cases. -/
theorem C2_text_concat_order (vm : VirtualMachine) (l_t r_t idx : Nat) (sl sr : String)
    (hl : vm.special_storage.get_data_ref l_t = some (SpecialItemData.Text sl))
    (hr : vm.special_storage.get_data_ref r_t = some (SpecialItemData.Text sr))
    (hidx : vm.get_last_ready_index = some idx)
    (hfresh : ∀ x ∈ vm.special_storage.items, x.item_id ≠ vm.special_storage.next_item_id) :
    (vm.add_values (DynamicValue.Text l_t) (DynamicValue.Text r_t)).1 =
      Except.ok (DynamicValue.Text vm.special_storage.next_item_id) ∧
    (vm.add_values (DynamicValue.Text l_t) (DynamicValue.Text r_t)).2.special_storage.get_data_ref
        vm.special_storage.next_item_id =
      some (SpecialItemData.Text
        (if vm.registers.first_operation then sl ++ sr else sr ++ sl)) ∧
    (vm.add_values (DynamicValue.Text l_t) (DynamicValue.Text r_t)).2.registers.first_operation =
      false := by
  have hlt : idx < vm.callstack.length := lastReadyIndex_lt vm idx hidx
  have hnle : ¬ vm.callstack.length ≤ idx := Nat.not_le.mpr hlt
  have hfind :
      findItem vm.special_storage.next_item_id
        (vm.special_storage.items ++
          [{ data := SpecialItemData.Text
                (if vm.registers.first_operation then sl ++ sr else sr ++ sl),
             item_id := vm.special_storage.next_item_id, ref_count := 0 }]) =
      some { data := SpecialItemData.Text
                (if vm.registers.first_operation then sl ++ sr else sr ++ sl),
             item_id := vm.special_storage.next_item_id, ref_count := 0 } := by
    rw [findItem_append, findItem_none hfresh]
    simp [findItem]
  have hl' : Option.map (fun x => x.data) (findItem l_t vm.special_storage.items) =
      some (SpecialItemData.Text sl) := hl
  have hr' : Option.map (fun x => x.data) (findItem r_t vm.special_storage.items) =
      some (SpecialItemData.Text sr) := hr
  by_cases hflag : vm.registers.first_operation = true
  · simp only [VirtualMachine.add_values, is_compatible, not_true,
      SpecialStorage.get_data_ref, SpecialStorage.get_ref, hl', hr', hflag,
      if_true, if_false, get_last_ready_index_set_registers, hidx,
      VirtualMachine.add_special_item, SpecialStorage.add]
    simp only [hnle, if_false]
    simp only [hflag, if_true] at hfind
    refine ⟨trivial, ?_, trivial⟩
    rw [hfind]
    rfl
  · have hflag' : vm.registers.first_operation = false := by
      revert hflag; cases vm.registers.first_operation <;> simp
    simp only [VirtualMachine.add_values, is_compatible, not_true,
      SpecialStorage.get_data_ref, SpecialStorage.get_ref, hl', hr', hflag',
      Bool.false_eq_true, if_true, if_false, hidx,
      VirtualMachine.add_special_item, SpecialStorage.add]
    simp only [hnle, if_false]
    simp only [hflag', Bool.false_eq_true, if_false] at hfind
    refine ⟨trivial, ?_, hflag'⟩
    rw [hfind]
    rfl

/-- C8 counterexample: with no stdin configured and a ready frame in
place, ReadInput succeeds as a no-op instead of failing as the claim
states. -/
theorem C8_counterexample :
    baseVM.stdin = none ∧
    baseVM.run trivialPluginEval Instruction.ReadInput =
      (Except.ok ExecutionStatus.Normal, baseVM) :=
  ⟨rfl, rfl⟩

/-- C8 amended: with stdin absent and skipping off, ReadInput is a silent
no-op (state unchanged, status Normal) whenever a narrow ready-frame index
exists; it fails only when no such index exists, and then with the
missing-function error, not an input error. -/
theorem C8_readinput_no_stdin_noop (pe : PluginEval) (vm : VirtualMachine)
    (hstdin : vm.stdin = none) (hskip : vm.get_current_skip_level = 0) :
    (∀ idx, vm.get_last_ready_index = some idx →
      vm.run pe Instruction.ReadInput = (Except.ok ExecutionStatus.Normal, vm)) ∧
    (vm.get_last_ready_index = none →
      vm.run pe Instruction.ReadInput =
        (Except.error (VmError.err "Nenhuma função em execução"), vm)) := by
  constructor
  · intro idx hidx
    delta VirtualMachine.run
    simp only [hskip, gt_iff_lt, lt_irrefl, if_false, hstdin, hidx]
  · intro hnone
    delta VirtualMachine.run
    simp only [hskip, gt_iff_lt, lt_irrefl, if_false, hstdin, hnone]

/-- C8 witness: the no-op case at a concrete one-frame VM without stdin,
and the error case at a VM with an empty callstack. -/
theorem C8_readinput_witness :
    baseVM.run trivialPluginEval Instruction.ReadInput =
      (Except.ok ExecutionStatus.Normal, baseVM) ∧
    VirtualMachine.new.run trivialPluginEval Instruction.ReadInput =
      (Except.error (VmError.err "Nenhuma função em execução"), VirtualMachine.new) :=
  ⟨(C8_readinput_no_stdin_noop trivialPluginEval baseVM rfl rfl).1 0 rfl,
   (C8_readinput_no_stdin_noop trivialPluginEval VirtualMachine.new rfl rfl).2 rfl⟩

/-- C9: CallPlugin rejects only addresses strictly greater than the number
of registered plugins; at the boundary address equal to plugins.len() the
guard passes and the subsequent Vec indexing is out of bounds, so the
instruction traps rather than failing gracefully. -/
theorem C9_call_plugin_boundary (pe : PluginEval) (vm : VirtualMachine) (num : Nat)
    (hskip : vm.get_current_skip_level = 0) :
    (∀ address, vm.plugins.length < address →
      vm.run pe (Instruction.CallPlugin address num) =
        (Except.error (VmError.err "CallPlugin : Endereço inválido"), vm)) ∧
    vm.run pe (Instruction.CallPlugin vm.plugins.length num) =
      (Except.error (VmError.trap "index out of bounds"), vm) := by
  constructor
  · intro address haddr
    delta VirtualMachine.run
    simp only [hskip, gt_iff_lt, lt_irrefl, if_false, haddr, if_true]
  · delta VirtualMachine.run
    simp only [hskip, gt_iff_lt, lt_irrefl, if_false, List.get?_length]

/-- C9 witness: a VM with exactly one plugin, called at the boundary
address 1 and at the rejected address 2. -/
theorem C9_call_plugin_witness :
    ({ baseVM with plugins := [0] } : VirtualMachine).run trivialPluginEval
        (Instruction.CallPlugin 2 0) =
      (Except.error (VmError.err "CallPlugin : Endereço inválido"),
        { baseVM with plugins := [0] }) ∧
    ({ baseVM with plugins := [0] } : VirtualMachine).run trivialPluginEval
        (Instruction.CallPlugin 1 0) =
      (Except.error (VmError.trap "index out of bounds"), { baseVM with plugins := [0] }) :=
  ⟨(C9_call_plugin_boundary trivialPluginEval { baseVM with plugins := [0] } 0 rfl).1 2
      (by decide),
   (C9_call_plugin_boundary trivialPluginEval { baseVM with plugins := [0] } 0 rfl).2⟩

/-- C7: decrement_ref always reports success; an unknown handle leaves the
heap unchanged, a known handle with reference count at most 1 removes the
item, and otherwise only that item's count drops by one. -/
theorem C7_decrement_ref (s : SpecialStorage) (id : Nat) :
    (s.decrement_ref id).1 = Except.ok () ∧
    ((∀ x ∈ s.items, x.item_id ≠ id) → (s.decrement_ref id).2 = s) ∧
    (∀ pre it post, s.items = pre ++ it :: post → (∀ x ∈ pre, x.item_id ≠ id) →
      it.item_id = id →
      (s.decrement_ref id).2 =
        { s with items := if it.ref_count ≤ 1 then pre ++ post
                          else pre ++ { it with ref_count := it.ref_count - 1 } :: post }) := by
  refine ⟨rfl, ?_, ?_⟩
  · intro hmiss
    unfold SpecialStorage.decrement_ref
    rw [decrementRefItems_miss hmiss]
  · intro pre it post hitems hpre hid
    unfold SpecialStorage.decrement_ref
    rw [hitems, decrementRefItems_found hpre hid]

/-- C7 witness: one-item heap; an unknown handle is ignored and the known
handle with count 1 removes the item. -/
theorem C7_decrement_ref_witness :
    (({ items := [itemText 0 "x" 1], next_item_id := 1 } : SpecialStorage).decrement_ref 5).1 =
      Except.ok () ∧
    (({ items := [itemText 0 "x" 1], next_item_id := 1 } : SpecialStorage).decrement_ref 5).2 =
      { items := [itemText 0 "x" 1], next_item_id := 1 } ∧
    (({ items := [itemText 0 "x" 1], next_item_id := 1 } : SpecialStorage).decrement_ref 0).2 =
      { items := [], next_item_id := 1 } :=
  ⟨(C7_decrement_ref { items := [itemText 0 "x" 1], next_item_id := 1 } 5).1,
   (C7_decrement_ref { items := [itemText 0 "x" 1], next_item_id := 1 } 5).2.1 (by decide),
   (C7_decrement_ref { items := [itemText 0 "x" 1], next_item_id := 1 } 0).2.2
      [] (itemText 0 "x" 1) [] rfl (by decide) rfl⟩

/-- C10: writing a Text or List value whose handle already sits in the
destination slot while that heap item's count is 1 first deallocates the
item through the decrement, then fails in increment_ref; the call returns
the invalid-handle error with the item gone and the slot untouched (still
holding the now-dangling handle). -/
theorem C10_write_same_handle_last_ref (vm : VirtualMachine)
    (stack_index address h : Nat) (v : DynamicValue)
    (pre post : List SpecialItem) (it : SpecialItem)
    (hsi : stack_index < vm.callstack.length)
    (haddr : address < (listGetD vm.callstack stack_index dummyFrame).stack.length)
    (hslot : listGetD (listGetD vm.callstack stack_index dummyFrame).stack address dummyValue = v)
    (hv : v = DynamicValue.Text h ∨ v = DynamicValue.List h)
    (hitems : vm.special_storage.items = pre ++ it :: post)
    (hid : it.item_id = h) (hrc : it.ref_count ≤ 1)
    (hpre : ∀ x ∈ pre, x.item_id ≠ h) (hpost : ∀ x ∈ post, x.item_id ≠ h) :
    vm.write_to v stack_index address =
      (Except.error (VmError.err "Invalid item ID"),
        { vm with special_storage := { vm.special_storage with items := pre ++ post } }) := by
  have hnle1 : ¬ vm.callstack.length ≤ stack_index := Nat.not_le.mpr hsi
  have hnle2 : ¬ (listGetD vm.callstack stack_index dummyFrame).stack.length ≤ address :=
    Nat.not_le.mpr haddr
  have hall : ∀ x ∈ pre ++ post, x.item_id ≠ h := by
    intro x hx
    rcases List.mem_append.mp hx with h1 | h1
    · exact hpre x h1
    · exact hpost x h1
  have hdec : decrementRefItems h vm.special_storage.items = pre ++ post := by
    rw [hitems, decrementRefItems_found hpre hid, if_pos hrc]
  have hinc : incrementRefItems h (pre ++ post) = none := incrementRefItems_none hall
  rcases hv with rfl | rfl <;>
    simp only [VirtualMachine.write_to, hnle1, hnle2, if_false, hslot,
      SpecialStorage.decrement_ref, hdec, SpecialStorage.increment_ref, hinc]

/-- C10 witness: a one-frame VM whose slot 0 holds Text 0 with heap count
1; rewriting the same handle deallocates the item and fails. -/
theorem C10_write_same_handle_witness :
    (({ VirtualMachine.new with
        callstack := [{ readyFrame with stack := [DynamicValue.Text 0, DynamicValue.Null] }]
        special_storage := { items := [itemText 0 "x" 1], next_item_id := 1 } } :
        VirtualMachine).write_to (DynamicValue.Text 0) 0 0) =
      (Except.error (VmError.err "Invalid item ID"),
        { VirtualMachine.new with
          callstack := [{ readyFrame with stack := [DynamicValue.Text 0, DynamicValue.Null] }]
          special_storage := { items := [], next_item_id := 1 } }) :=
  C10_write_same_handle_last_ref
    { VirtualMachine.new with
      callstack := [{ readyFrame with stack := [DynamicValue.Text 0, DynamicValue.Null] }]
      special_storage := { items := [itemText 0 "x" 1], next_item_id := 1 } }
    0 0 0 (DynamicValue.Text 0) [] [] (itemText 0 "x" 1)
    (by decide) (by decide) rfl (Or.inl rfl) rfl rfl (by decide) (by decide) (by decide)

/-- C2 witness: the amended order at the concrete fixture (flag clear
yields "B" ++ "A"). -/
theorem C2_text_concat_order_witness :
    (vmC2.add_values (DynamicValue.Text 0) (DynamicValue.Text 1)).1 =
      Except.ok (DynamicValue.Text 2) ∧
    (vmC2.add_values (DynamicValue.Text 0) (DynamicValue.Text 1)).2.special_storage.get_data_ref 2 =
      some (SpecialItemData.Text
        (if vmC2.registers.first_operation then "A" ++ "B" else "B" ++ "A")) ∧
    (vmC2.add_values (DynamicValue.Text 0) (DynamicValue.Text 1)).2.registers.first_operation =
      false :=
  C2_text_concat_order vmC2 0 1 0 "A" "B" rfl rfl rfl (by decide)

/-- C6: Return with a single frame on the callstack sets has_quit and
yields Quit; with two or more frames (and the write of math_b into slot 0
of the new top frame succeeding, and math_b printable for the interactive
echo) it pops the top frame, performs that write, and yields Returned. -/
theorem C6_return (pe : PluginEval) (vm : VirtualMachine)
    (hskip : vm.get_current_skip_level = 0) :
    (vm.callstack.length = 1 →
      vm.run pe Instruction.Return =
        (Except.ok ExecutionStatus.Quit,
          { vm with registers := { vm.registers with has_quit := true } })) ∧
    (∀ vmW, 2 ≤ vm.callstack.length →
      ({ vm with callstack := vm.callstack.dropLast } : VirtualMachine).write_to
          vm.registers.math_b (vm.callstack.dropLast.length - 1) 0 =
        (Except.ok (), vmW) →
      (vmW.printMathBDebugStep).1 = Except.ok ExecutionStatus.Normal →
      vm.run pe Instruction.Return =
        (Except.ok ExecutionStatus.Returned,
          if vmW.callstack.length = 1 ∧ vmW.registers.is_interactive = true
          then (vmW.printMathBDebugStep).2 else vmW)) := by
  constructor
  · intro h1
    delta VirtualMachine.run
    simp only [hskip, gt_iff_lt, lt_irrefl, if_false, h1, if_true]
  · intro vmW h2 hw hecho
    have h1 : ¬ vm.callstack.length = 1 := by omega
    delta VirtualMachine.run
    simp only [hskip, gt_iff_lt, lt_irrefl, if_false, h1]
    rcases hcs : vm.callstack with _ | ⟨f, rest⟩
    · rw [hcs] at h2; simp at h2
    · rw [hcs] at hw
      dsimp only
      rw [hw]
      dsimp only
      by_cases hcond : vmW.callstack.length = 1 ∧ vmW.registers.is_interactive = true
      · rw [if_pos hcond, if_pos hcond]
        rcases hp : vmW.printMathBDebugStep with ⟨res, vmE⟩
        rw [hp] at hecho
        simp only at hecho
        subst hecho
        rfl
      · rw [if_neg hcond, if_neg hcond]

/-- C6 witness: a one-frame VM quits on Return; a two-frame VM with
math_b = Integer 7 pops, writes slot 0 of the remaining frame, and
reports Returned. -/
theorem C6_return_witness :
    baseVM.run trivialPluginEval Instruction.Return =
      (Except.ok ExecutionStatus.Quit,
        { baseVM with registers := { baseVM.registers with has_quit := true } }) ∧
    ({ VirtualMachine.new with
        registers := { Registers.default with math_b := DynamicValue.Integer 7 }
        callstack := [readyFrame, readyFrame] } : VirtualMachine).run trivialPluginEval
        Instruction.Return =
      (Except.ok ExecutionStatus.Returned,
        (({ VirtualMachine.new with
            registers := { Registers.default with math_b := DynamicValue.Integer 7 }
            callstack := [readyFrame] } : VirtualMachine).write_to
          (DynamicValue.Integer 7) 0 0).2) :=
  ⟨(C6_return trivialPluginEval baseVM rfl).1 rfl,
   (C6_return trivialPluginEval
      { VirtualMachine.new with
        registers := { Registers.default with math_b := DynamicValue.Integer 7 }
        callstack := [readyFrame, readyFrame] } rfl).2
      ((({ VirtualMachine.new with
          registers := { Registers.default with math_b := DynamicValue.Integer 7 }
          callstack := [readyFrame] } : VirtualMachine).write_to
        (DynamicValue.Integer 7) 0 0).2)
      (by decide) rfl rfl⟩

end Birl
